import Mathlib

set_option maxHeartbeats 1000000

/-!
Shallow embedding of bot.py, a Telegram bot that collects free-text data
points from a user and appends them as one row to a Google Sheets worksheet,
and separately proxies a search query to a search tool and renders the
results.  Handlers are translated function by function from the source; the
dispatcher mirrors how python-telegram-bot resolves an update against the two
ConversationHandler objects registered in main.  External effects (the
worksheet handle, the outcome of append_row, the outcome of google_search)
are parameters of the model.
-/

namespace Bot

/-- Return value of a conversation handler callback: one of the two concrete
conversation states used by bot.py (GET_DATA for the data-collection
conversation, RECEIVING_SEARCH_QUERY for the search conversation), the
ConversationHandler.END sentinel, or Python None (the callback fell through
without an explicit return), which leaves the conversation state unchanged. -/
inductive HRes
  | getData
  | receivingQuery
  | endConv
  | noRes
  deriving DecidableEq, Repr

/-- The part of context.user_data that bot.py uses for one user: none when
the key current_data is absent, some l when it is present and maps to the
list l of collected data points. -/
abbrev UserData := Option (List String)

/-- One search result item as read by perform_search (attributes
source_title, url, snippet; each may be missing). -/
structure SearchResultItem where
  source_title : Option String
  url : Option String
  snippet : Option String
  deriving DecidableEq, Repr

/-- One result set as returned by the google_search tool for one query. -/
structure SearchResultSet where
  results : List SearchResultItem
  deriving DecidableEq, Repr

/-- Python truthiness of the expression field or N/A for an optional string
field: None and the empty string are falsy and replaced by N/A. -/
def orNA (v : Option String) : String :=
  match v with
  | none => "N/A"
  | some s => if s = "" then "N/A" else s

/-- Model of start (bot.py lines 57-79): greets the user, presents the
Submit Data Point / Cancel buttons, and returns GET_DATA.  It does not touch
user_data. -/
def start (mention : String) : HRes × List String :=
  (.getData,
    ["Hi " ++ mention ++ "! I\x27m a bot to help you collect data for your AI model."
       ++ "Send me the data you want to add to the dataset. Type /cancel to stop at any time.",
     "Please select an action:"])

/-- Model of get_data (bot.py lines 81-108): creates user_data with the
empty list when the current_data key is absent, appends the incoming text,
replies, and returns GET_DATA. -/
def get_data (user_data : UserData) (data_point : String) :
    UserData × HRes × List String :=
  let current :=
    match user_data with
    | none => []
    | some l => l
  (some (current ++ [data_point]), .getData,
    ["Received your data point. Add another one or use the buttons.",
     "What would you like to do next?"])

/-- Output of the data_button callback: the new user_data, the returned
conversation state, whether the callback query was answered, the texts shown
to the user (via edit_message_text), and the rows passed to
worksheet.append_row (the row is recorded even when the call raises). -/
structure BtnOut where
  user_data : UserData
  result : HRes
  answered : Bool
  msgs : List String
  appends : List (List String)
  deriving DecidableEq, Repr

/-- Model of data_button (bot.py lines 110-144).  worksheet is whether the
module-level worksheet handle is non-null; append_row_ok gives the outcome
of worksheet.append_row on a given row (false means the call raises and the
except branch runs).  The pop of current_data happens on every path of the
finish branch that saw a non-empty list, and on the cancel branch; an
unrecognized callback-data string reaches no branch, so the function falls
through returning Python None with user_data untouched. -/
def data_button (worksheet : Bool) (append_row_ok : List String → Bool)
    (user_data : UserData) (d : String) : BtnOut :=
  if d = "submit_data" ∨ d = "add_more_data" then
    ⟨user_data, .getData, true, ["Okay, send me the data point."], []⟩
  else if d = "finish_submission" then
    match user_data with
    | some current_data =>
      if current_data ≠ [] then
        if worksheet then
          if append_row_ok current_data then
            ⟨none, .endConv, true, ["Data successfully added to the dataset!"],
              [current_data]⟩
          else
            ⟨none, .endConv, true,
              ["Sorry, there was an error adding data to the sheet."],
              [current_data]⟩
        else
          ⟨none, .endConv, true,
            ["Sorry, could not connect to Google Sheets. Data not saved."], []⟩
      else
        ⟨some current_data, .endConv, true, ["No data collected yet."], []⟩
    | none => ⟨none, .endConv, true, ["No data collected yet."], []⟩
  else if d = "cancel_submission" then
    ⟨none, .endConv, true, ["Data submission cancelled."], []⟩
  else
    ⟨user_data, .noRes, true, [], []⟩

/-- Model of cancel_data_collection (bot.py lines 146-153): pops
current_data and ends the conversation. -/
def cancel_data_collection (user_data : UserData) : UserData × HRes × List String :=
  (none, .endConv, ["Data submission cancelled. Bye!"])

/-- Model of search_command (bot.py lines 157-160). -/
def search_command : HRes × List String :=
  (.receivingQuery, ["What would you like to search for?"])

/-- Model of perform_search (bot.py lines 162-186).  outcome is what the
google_search call returns for this query, none meaning the call raises and
the except branch runs.  Only the first result set is rendered, prefixed by
a Search Results header; missing or empty fields render as N/A. -/
def perform_search (outcome : Option (List SearchResultSet)) (search_query : String) :
    List String × HRes :=
  let ack := "Searching for \x27" ++ search_query ++ "\x27..."
  match outcome with
  | none => ([ack, "Sorry, an error occurred while performing the search."], .endConv)
  | some search_results =>
    let reply_text :=
      match search_results with
      | [] => "No search results found."
      | first :: _ =>
        if first.results.isEmpty then "No search results found."
        else
          first.results.foldl (fun acc result =>
            acc ++ "Title: " ++ orNA result.source_title ++ "\n"
                ++ "URL: " ++ orNA result.url ++ "\n"
                ++ "Snippet: " ++ orNA result.snippet ++ "\n\n")
            "Search Results:\n\n"
    ([ack, reply_text], .endConv)

/-- Model of cancel_search (bot.py lines 188-191). -/
def cancel_search : HRes × List String :=
  (.endConv, ["Search cancelled."])

/-- Model of main (bot.py lines 194-203) up to the configuration gate:
tokenEnv is the value of the TELEGRAM_BOT_TOKEN environment variable; the
result is whether the application is built and started (false means main
logs an error and returns early). -/
def main (tokenEnv : Option String) : Bool :=
  let tok := tokenEnv.getD "YOUR_BOT_TOKEN"
  if tok = "YOUR_BOT_TOKEN" then false else true

/-- State of the data-collection ConversationHandler for one user: inactive,
or in the GET_DATA state. -/
inductive DataConvState
  | idle
  | getData
  deriving DecidableEq, Repr

/-- State of the search ConversationHandler for one user: inactive, or in
the RECEIVING_SEARCH_QUERY state. -/
inductive SearchConvState
  | idle
  | receivingQuery
  deriving DecidableEq, Repr

/-- Per-user state of the bot process, plus observational bookkeeping:
collected is the list of text messages handled by get_data since the current
dialogue started, and dialogueAppends counts the append_row calls made since
the current dialogue started (both are reset when start runs). -/
structure BotState where
  dataConv : DataConvState
  searchConv : SearchConvState
  current_data : UserData
  collected : List String
  dialogueAppends : Nat
  deriving DecidableEq, Repr

/-- The external environment of one run: whether the worksheet handle is
non-null, the outcome of append_row per row (false means the call raises),
the outcome of the google_search tool per query (none means the call
raises), and the HTML mention of the user used in the greeting. -/
structure Env where
  worksheet : Bool
  append_row_ok : List String → Bool
  google_search : String → Option (List SearchResultSet)
  mention : String

/-- The user-visible events the registered handlers can receive: the /start
command, the /search command, the /cancel command, a plain (non-command)
text message, and a callback-query button press carrying its callback data. -/
inductive Ev
  | startCmd
  | searchCmd
  | cancelCmd
  | textMsg (s : String)
  | button (d : String)
  deriving DecidableEq, Repr

/-- Result of dispatching one event: the new per-user state, the texts sent
or edited, and the rows passed to append_row. -/
structure StepOut where
  state : BotState
  msgs : List String
  appends : List (List String)
  deriving DecidableEq, Repr

/-- Applies a handler return value to the data-collection conversation
state: GET_DATA enters GET_DATA, END deactivates, None keeps the state. -/
def applyData (cur : DataConvState) (r : HRes) : DataConvState :=
  match r with
  | .getData => .getData
  | .endConv => .idle
  | .noRes => cur
  | .receivingQuery => cur

/-- Applies a handler return value to the search conversation state. -/
def applySearch (cur : SearchConvState) (r : HRes) : SearchConvState :=
  match r with
  | .receivingQuery => .receivingQuery
  | .endConv => .idle
  | .noRes => cur
  | .getData => cur

/-- An update no registered handler matches: nothing happens. -/
def noStep (st : BotState) : StepOut := ⟨st, [], []⟩

/-- Dispatches one event the way the application built in main does: the
data-collection ConversationHandler is checked first (entry point /start
when inactive; in GET_DATA the text MessageHandler, the
CallbackQueryHandler, and the /cancel fallback), then the search
ConversationHandler (entry point /search when inactive; in
RECEIVING_SEARCH_QUERY the text MessageHandler and the /cancel fallback).
collected and dialogueAppends are observational bookkeeping updated
alongside. -/
def step (env : Env) (st : BotState) (ev : Ev) : StepOut :=
  match ev with
  | .startCmd =>
    match st.dataConv with
    | .idle =>
      let (r, ms) := start env.mention
      ⟨{ st with
          dataConv := applyData st.dataConv r,
          collected := [],
          dialogueAppends := 0 }, ms, []⟩
    | .getData => noStep st
  | .searchCmd =>
    match st.searchConv with
    | .idle =>
      let (r, ms) := search_command
      ⟨{ st with searchConv := applySearch st.searchConv r }, ms, []⟩
    | .receivingQuery => noStep st
  | .cancelCmd =>
    match st.dataConv with
    | .getData =>
      let (ud, r, ms) := cancel_data_collection st.current_data
      ⟨{ st with dataConv := applyData st.dataConv r, current_data := ud }, ms, []⟩
    | .idle =>
      match st.searchConv with
      | .receivingQuery =>
        let (r, ms) := cancel_search
        ⟨{ st with searchConv := applySearch st.searchConv r }, ms, []⟩
      | .idle => noStep st
  | .textMsg s =>
    match st.dataConv with
    | .getData =>
      let (ud, r, ms) := get_data st.current_data s
      ⟨{ st with
          dataConv := applyData st.dataConv r,
          current_data := ud,
          collected := st.collected ++ [s] }, ms, []⟩
    | .idle =>
      match st.searchConv with
      | .receivingQuery =>
        let (ms, r) := perform_search (env.google_search s) s
        ⟨{ st with searchConv := applySearch st.searchConv r }, ms, []⟩
      | .idle => noStep st
  | .button d =>
    match st.dataConv with
    | .getData =>
      let o := data_button env.worksheet env.append_row_ok st.current_data d
      ⟨{ st with
          dataConv := applyData st.dataConv o.result,
          current_data := o.user_data,
          dialogueAppends := st.dialogueAppends + o.appends.length },
        o.msgs, o.appends⟩
    | .idle => noStep st

/-- The per-user state when the process starts: no conversation active, no
current_data key. -/
def init : BotState := ⟨.idle, .idle, none, [], 0⟩

/-- Processes a list of events in order, accumulating the texts sent and the
rows passed to append_row. -/
def run (env : Env) (st : BotState) : List Ev → StepOut
  | [] => ⟨st, [], []⟩
  | ev :: evs =>
    let o := step env st ev
    let r := run env o.state evs
    ⟨r.state, o.msgs ++ r.msgs, o.appends ++ r.appends⟩

/-- The state reached from process start after a list of events. -/
def reach (env : Env) (evs : List Ev) : BotState :=
  (run env init evs).state

/-- Reachability invariant: while the data conversation is inactive the
current_data key is absent; while it is in GET_DATA, current_data is either
absent (no text received yet) or holds exactly the non-empty list of texts
received since the dialogue started; and at most one append_row call has
been made in the current dialogue, none while still in GET_DATA. -/
structure Inv (st : BotState) : Prop where
  data_idle : st.dataConv = .idle → st.current_data = none
  data_active : st.dataConv = .getData →
    match st.current_data with
    | none => st.collected = []
    | some l => l = st.collected ∧ l ≠ []
  appends_le : st.dialogueAppends ≤ 1
  appends_active : st.dataConv = .getData → st.dialogueAppends = 0

theorem inv_init : Inv init :=
  ⟨fun _ => rfl, fun h => (nomatch h), Nat.zero_le _, fun h => (nomatch h)⟩

/-- Case analysis on the output of data_button: either it leaves user_data
in place with no append and result GET_DATA or None; or it saw the
(unreachable under Inv) present-but-empty list; or it cleared user_data,
ended the conversation and made no append; or it cleared user_data, ended
the conversation and passed exactly the stored non-empty list to
append_row. -/
theorem data_button_shape (ws : Bool) (ao : List String → Bool)
    (ud : UserData) (d : String) :
    ((data_button ws ao ud d).user_data = ud ∧
      (data_button ws ao ud d).appends = [] ∧
      ((data_button ws ao ud d).result = HRes.getData ∨
        (data_button ws ao ud d).result = HRes.noRes)) ∨
    (ud = some [] ∧ (data_button ws ao ud d).user_data = some [] ∧
      (data_button ws ao ud d).result = HRes.endConv ∧
      (data_button ws ao ud d).appends = []) ∨
    ((data_button ws ao ud d).user_data = none ∧
      (data_button ws ao ud d).result = HRes.endConv ∧
      (data_button ws ao ud d).appends = []) ∨
    (∃ l, ud = some l ∧ l ≠ [] ∧
      (data_button ws ao ud d).user_data = none ∧
      (data_button ws ao ud d).result = HRes.endConv ∧
      (data_button ws ao ud d).appends = [l]) := by
  cases ud with
  | none =>
    simp only [data_button]
    split_ifs <;> simp_all
  | some l =>
    simp only [data_button]
    split_ifs <;> simp_all

/-- One dispatch step preserves the reachability invariant. -/
theorem inv_step (env : Env) (st : BotState) (ev : Ev) (h : Inv st) :
    Inv (step env st ev).state := by
  obtain ⟨dc, sc, cd, col, da⟩ := st
  obtain ⟨h1, h2, h3, h4⟩ := h
  cases ev with
  | startCmd =>
    cases dc with
    | idle =>
      have hcd : cd = none := h1 rfl
      subst hcd
      exact ⟨fun h => (nomatch h), fun _ => rfl, Nat.zero_le _, fun _ => rfl⟩
    | getData => exact ⟨h1, h2, h3, h4⟩
  | searchCmd =>
    cases sc with
    | idle => exact ⟨h1, h2, h3, h4⟩
    | receivingQuery => exact ⟨h1, h2, h3, h4⟩
  | cancelCmd =>
    cases dc with
    | getData =>
      exact ⟨fun _ => rfl, fun h => (nomatch h), h3, fun h => (nomatch h)⟩
    | idle =>
      cases sc with
      | receivingQuery => exact ⟨h1, h2, h3, h4⟩
      | idle => exact ⟨h1, h2, h3, h4⟩
  | textMsg s =>
    cases dc with
    | getData =>
      cases cd with
      | none =>
        have hcol : col = [] := by simpa using h2 rfl
        subst hcol
        exact ⟨fun h => (nomatch h), fun _ => by simp [step, get_data, applyData],
          h3, fun _ => h4 rfl⟩
      | some l =>
        have hl : l = col ∧ l ≠ [] := by simpa using h2 rfl
        exact ⟨fun h => (nomatch h), fun _ => by simp [step, get_data, applyData, hl.1],
          h3, fun _ => h4 rfl⟩
    | idle =>
      cases sc with
      | receivingQuery => exact ⟨h1, h2, h3, h4⟩
      | idle => exact ⟨h1, h2, h3, h4⟩
  | button d =>
    cases dc with
    | idle => exact ⟨h1, h2, h3, h4⟩
    | getData =>
      have h0 : da = 0 := h4 rfl
      subst h0
      rcases data_button_shape env.worksheet env.append_row_ok cd d with
        ⟨ha, hb, hc⟩ | ⟨he, ha, hb, hc⟩ | ⟨ha, hb, hc⟩ | ⟨l, hl1, hl2, ha, hb, hc⟩
      · rcases hc with hc | hc <;>
          exact ⟨fun h => by simp [step, applyData, hc] at h,
            fun _ => by simp only [step]; rw [ha]; exact h2 rfl,
            by simp [step, hb], fun _ => by simp [step, hb]⟩
      · exfalso
        have := h2 rfl
        rw [he] at this
        exact this.2 rfl
      · exact ⟨fun _ => by simp only [step]; rw [ha],
          fun h => by simp [step, applyData, hb] at h,
          by simp [step, hc], fun h => by simp [step, applyData, hb] at h⟩
      · exact ⟨fun _ => by simp only [step]; rw [ha],
          fun h => by simp [step, applyData, hb] at h,
          by simp [step, hc], fun h => by simp [step, applyData, hb] at h⟩

/-- Running any event list preserves the invariant. -/
theorem inv_run (env : Env) (evs : List Ev) (st : BotState) (h : Inv st) :
    Inv (run env st evs).state := by
  induction evs generalizing st with
  | nil => exact h
  | cons e es ih => exact ih _ (inv_step env st e h)

/-- Every state reachable from process start satisfies the invariant. -/
theorem inv_reach (env : Env) (evs : List Ev) : Inv (reach env evs) :=
  inv_run env evs init inv_init

/-- Reduction of a dispatch of a plain text message while in GET_DATA. -/
theorem step_textMsg (env : Env) (sc : SearchConvState) (cd : UserData)
    (col : List String) (da : Nat) (s : String) :
    step env ⟨.getData, sc, cd, col, da⟩ (Ev.textMsg s) =
      ⟨⟨.getData, sc, some (cd.getD [] ++ [s]), col ++ [s], da⟩,
       ["Received your data point. Add another one or use the buttons.",
        "What would you like to do next?"], []⟩ := by
  cases cd <;> rfl

/-- Reduction of a dispatch of the start command while no data conversation
is active. -/
theorem step_startCmd (env : Env) (sc : SearchConvState) (cd : UserData)
    (col : List String) (da : Nat) :
    step env ⟨.idle, sc, cd, col, da⟩ Ev.startCmd =
      ⟨⟨.getData, sc, cd, [], 0⟩, (start env.mention).2, []⟩ := rfl

/-- Reduction of a dispatch of a button press while in GET_DATA. -/
theorem step_button (env : Env) (sc : SearchConvState) (cd : UserData)
    (col : List String) (da : Nat) (d : String) :
    step env ⟨.getData, sc, cd, col, da⟩ (Ev.button d) =
      ⟨⟨applyData .getData (data_button env.worksheet env.append_row_ok cd d).result,
        sc, (data_button env.worksheet env.append_row_ok cd d).user_data, col,
        da + (data_button env.worksheet env.append_row_ok cd d).appends.length⟩,
       (data_button env.worksheet env.append_row_ok cd d).msgs,
       (data_button env.worksheet env.append_row_ok cd d).appends⟩ := rfl

/-- Reduction of data_button on the finish button with a stored non-empty
list. -/
theorem data_button_finish_some (ws : Bool) (ao : List String → Bool)
    (l : List String) (hl : l ≠ []) :
    data_button ws ao (some l) "finish_submission" =
      if ws then
        if ao l then
          ⟨none, .endConv, true, ["Data successfully added to the dataset!"], [l]⟩
        else
          ⟨none, .endConv, true,
            ["Sorry, there was an error adding data to the sheet."], [l]⟩
      else
        ⟨none, .endConv, true,
          ["Sorry, could not connect to Google Sheets. Data not saved."], []⟩ := by
  simp [data_button, hl]

/-- Reduction of data_button on the finish button with no current_data key. -/
theorem data_button_finish_none (ws : Bool) (ao : List String → Bool) :
    data_button ws ao none "finish_submission" =
      ⟨none, .endConv, true, ["No data collected yet."], []⟩ := by
  simp [data_button]

/-- A run over a concatenation of event lists splits into two runs. -/
theorem run_append (env : Env) (st : BotState) (l1 l2 : List Ev) :
    run env st (l1 ++ l2) =
      ⟨(run env (run env st l1).state l2).state,
       (run env st l1).msgs ++ (run env (run env st l1).state l2).msgs,
       (run env st l1).appends ++ (run env (run env st l1).state l2).appends⟩ := by
  induction l1 generalizing st with
  | nil => simp [run]
  | cons e es ih => simp [run, ih, List.append_assoc]

/-- A run of plain text messages while in GET_DATA appends them in order to
the stored list and makes no append_row call. -/
theorem run_texts (env : Env) (sc : SearchConvState) (acc col : List String)
    (da : Nat) (texts : List String) :
    (run env ⟨.getData, sc, some acc, col, da⟩ (texts.map Ev.textMsg)).state =
      ⟨.getData, sc, some (acc ++ texts), col ++ texts, da⟩ ∧
    (run env ⟨.getData, sc, some acc, col, da⟩ (texts.map Ev.textMsg)).appends = [] := by
  induction texts generalizing acc col with
  | nil => exact ⟨by simp [run], rfl⟩
  | cons t ts ih =>
    have hstep := step_textMsg env sc (some acc) col da t
    have hih := ih (acc ++ [t]) (col ++ [t])
    constructor
    · show (run env (step env ⟨.getData, sc, some acc, col, da⟩ (Ev.textMsg t)).state
        (ts.map Ev.textMsg)).state = _
      rw [hstep]
      simp only [Option.getD_some] at *
      rw [hih.1]
      simp [List.append_assoc]
    · show (run env (step env ⟨.getData, sc, some acc, col, da⟩ (Ev.textMsg t)).state
        (ts.map Ev.textMsg)).appends = []
      rw [hstep]
      simp only [Option.getD_some] at *
      exact hih.2

/-- A fully healthy environment, used to evaluate theorems at concrete
inputs: worksheet connected, append_row succeeds, google_search returns an
empty result list. -/
def envOk : Env := ⟨true, fun _ => true, fun _ => some [], "user"⟩

/-- An environment whose spreadsheet connection failed at startup. -/
def envDown : Env := ⟨false, fun _ => true, fun _ => some [], "user"⟩

/-- An environment in which both external calls raise. -/
def envRaise : Env := ⟨true, fun _ => false, fun _ => none, "user"⟩

/-- The search outcome of claim C3: one result set containing one record
with title A, url u and a missing snippet. -/
def c3_outcome : List SearchResultSet := [⟨[⟨some "A", some "u", none⟩]⟩]

/-- Claim C3 counterexample: for the result set with title A, url u and null
snippet, the reply rendered by perform_search is not the string
Title: A, URL: u, Snippet: N/A followed by a blank line, and no reply equal
to that string is sent at all: the code prefixes a Search Results header. -/
theorem C3_counterexample :
    (perform_search (some c3_outcome) "A").1.getD 1 "" ≠
      "Title: A\nURL: u\nSnippet: N/A\n\n" ∧
    "Title: A\nURL: u\nSnippet: N/A\n\n" ∉ (perform_search (some c3_outcome) "A").1 := by
  decide

/-- Claim C3 amended: for a search whose result set is exactly one record
with title A, url u and null snippet, the rendered reply is exactly the
header Search Results followed by a blank line and then the Title/URL/Snippet
block with N/A substituted for the missing snippet; the acknowledgement
echoing the query precedes it and the dialogue ends. -/
theorem C3_render_with_header (q : String) :
    perform_search (some c3_outcome) q =
      (["Searching for \x27" ++ q ++ "\x27...",
        "Search Results:\n\nTitle: A\nURL: u\nSnippet: N/A\n\n"], HRes.endConv) := rfl

/-- Claim C7: an append_row call that raises is caught in data_button and
turned into the generic sheet-error reply, a google_search call that raises
is caught in perform_search and turned into the generic search-error reply,
and both handlers end their dialogue whatever the outcome of the external
call, so no failure propagates out of a handler. -/
theorem C7_external_failures_caught (env : Env) (l : List String) (q : String)
    (hl : l ≠ []) (hfail : env.append_row_ok l = false)
    (hsearch : env.google_search q = none) :
    (data_button true env.append_row_ok (some l) "finish_submission").msgs =
      ["Sorry, there was an error adding data to the sheet."] ∧
    (data_button true env.append_row_ok (some l) "finish_submission").result =
      HRes.endConv ∧
    perform_search (env.google_search q) q =
      (["Searching for \x27" ++ q ++ "\x27...",
        "Sorry, an error occurred while performing the search."], HRes.endConv) ∧
    (∀ (ws : Bool) (ao : List String → Bool) (ud : UserData),
      (data_button ws ao ud "finish_submission").result = HRes.endConv) ∧
    (∀ (outcome : Option (List SearchResultSet)) (s : String),
      (perform_search outcome s).2 = HRes.endConv) := by
  refine ⟨?_, ?_, ?_, ?_, ?_⟩
  · rw [data_button_finish_some true env.append_row_ok l hl]
    simp [hfail]
  · rw [data_button_finish_some true env.append_row_ok l hl]
    simp [hfail]
  · rw [hsearch]
    rfl
  · intro ws ao ud
    cases ud with
    | none => rw [data_button_finish_none]
    | some l2 =>
      by_cases h : l2 = []
      · subst h
        simp [data_button]
      · rw [data_button_finish_some ws ao l2 h]
        split_ifs <;> rfl
  · intro outcome s
    cases outcome <;> rfl

theorem C7_external_failures_caught_witness :
    (data_button true envRaise.append_row_ok (some ["a"]) "finish_submission").msgs =
      ["Sorry, there was an error adding data to the sheet."] ∧
    perform_search (envRaise.google_search "x") "x" =
      (["Searching for \x27x\x27...",
        "Sorry, an error occurred while performing the search."], HRes.endConv) :=
  ⟨(C7_external_failures_caught envRaise ["a"] "x" (by decide) rfl rfl).1,
   (C7_external_failures_caught envRaise ["a"] "x" (by decide) rfl rfl).2.2.1⟩

/-- Claim C8: when the TELEGRAM_BOT_TOKEN environment variable is unset or
set to the placeholder YOUR_BOT_TOKEN, main returns without building and
starting the application; for any other token value the application is built
and started. -/
theorem C8_token_gate :
    main none = false ∧ main (some "YOUR_BOT_TOKEN") = false ∧
    ∀ t : String, t ≠ "YOUR_BOT_TOKEN" → main (some t) = true := by
  refine ⟨rfl, by decide, fun t ht => ?_⟩
  simp [main, ht]

theorem C8_token_gate_witness : main (some "123456:ABC") = true :=
  C8_token_gate.2.2 "123456:ABC" (by decide)

/-- Claim C9: a finish action taken with a non-empty stored list removes the
current_data key from user_data whatever the outcome: append success, append
raising, or null worksheet handle (the universally quantified worksheet flag
and append outcome cover all three), and the dialogue ends. -/
theorem C9_entries_cleared (ws : Bool) (ao : List String → Bool)
    (l : List String) (hl : l ≠ []) :
    (data_button ws ao (some l) "finish_submission").user_data = none ∧
    (data_button ws ao (some l) "finish_submission").result = HRes.endConv := by
  rw [data_button_finish_some ws ao l hl]
  split_ifs <;> exact ⟨rfl, rfl⟩

theorem C9_entries_cleared_witness :
    (data_button false (fun _ => true) (some ["a"]) "finish_submission").user_data =
      none :=
  (C9_entries_cleared false (fun _ => true) ["a"] (by decide)).1

/-- Claim C10: a button press in GET_DATA whose callback data is none of
submit_data, add_more_data, finish_submission, cancel_submission answers the
callback, leaves user_data and the whole per-user state unchanged, sends no
message, makes no append, and returns Python None rather than GET_DATA or
END (so the conversation stays in GET_DATA). -/
theorem C10_unknown_button (env : Env) (st : BotState) (d : String)
    (h1 : d ≠ "submit_data") (h2 : d ≠ "add_more_data")
    (h3 : d ≠ "finish_submission") (h4 : d ≠ "cancel_submission")
    (hst : st.dataConv = .getData) :
    data_button env.worksheet env.append_row_ok st.current_data d =
      ⟨st.current_data, HRes.noRes, true, [], []⟩ ∧
    (step env st (Ev.button d)).state = st ∧
    (step env st (Ev.button d)).msgs = [] ∧
    (step env st (Ev.button d)).appends = [] := by
  obtain ⟨dc, sc, cd, col, da⟩ := st
  subst hst
  have hdb : data_button env.worksheet env.append_row_ok cd d =
      ⟨cd, HRes.noRes, true, [], []⟩ := by
    simp [data_button, h1, h2, h3, h4]
  refine ⟨hdb, ?_, ?_, ?_⟩
  · rw [step_button, hdb]
    simp [applyData]
  · rw [step_button, hdb]
  · rw [step_button, hdb]

theorem C10_unknown_button_witness :
    data_button envOk.worksheet envOk.append_row_ok
        (⟨.getData, .idle, some ["a"], ["a"], 0⟩ : BotState).current_data "bogus" =
      ⟨some ["a"], HRes.noRes, true, [], []⟩ ∧
    (step envOk (⟨.getData, .idle, some ["a"], ["a"], 0⟩ : BotState)
        (Ev.button "bogus")).state = ⟨.getData, .idle, some ["a"], ["a"], 0⟩ :=
  ⟨(C10_unknown_button envOk ⟨.getData, .idle, some ["a"], ["a"], 0⟩ "bogus"
      (by decide) (by decide) (by decide) (by decide) rfl).1,
   (C10_unknown_button envOk ⟨.getData, .idle, some ["a"], ["a"], 0⟩ "bogus"
      (by decide) (by decide) (by decide) (by decide) rfl).2.1⟩

/-- With a null worksheet handle, data_button never passes a row to
append_row. -/
theorem data_button_down_appends (ao : List String → Bool) (ud : UserData)
    (d : String) : (data_button false ao ud d).appends = [] := by
  cases ud <;> simp only [data_button] <;> split_ifs <;> simp_all

/-- With a null worksheet handle, no dispatch step calls append_row. -/
theorem step_no_append_of_down (env : Env) (hws : env.worksheet = false)
    (st : BotState) (ev : Ev) : (step env st ev).appends = [] := by
  obtain ⟨dc, sc, cd, col, da⟩ := st
  cases ev with
  | startCmd => cases dc <;> rfl
  | searchCmd => cases sc <;> rfl
  | cancelCmd =>
    cases dc with
    | getData => rfl
    | idle => cases sc <;> rfl
  | textMsg s =>
    cases dc with
    | getData => rfl
    | idle => cases sc <;> rfl
  | button d =>
    cases dc with
    | idle => rfl
    | getData =>
      show (data_button env.worksheet env.append_row_ok cd d).appends = []
      rw [hws]
      exact data_button_down_appends env.append_row_ok cd d

/-- With a null worksheet handle, no run ever calls append_row. -/
theorem run_no_append_of_down (env : Env) (hws : env.worksheet = false)
    (st : BotState) (evs : List Ev) : (run env st evs).appends = [] := by
  induction evs generalizing st with
  | nil => rfl
  | cons e es ih =>
    show (step env st e).appends ++ (run env (step env st e).state es).appends = []
    rw [step_no_append_of_down env hws st e, ih ((step env st e).state)]
    rfl

/-- Claim C4 counterexample: with the worksheet handle null, the finish
button pressed in a dialogue with no collected entries replies No data
collected yet., not the unavailable-backend message, so not every finish
action produces the unavailable-backend reply. -/
theorem C4_counterexample :
    "Sorry, could not connect to Google Sheets. Data not saved." ∉
      (run envDown init [Ev.startCmd, Ev.button "finish_submission"]).msgs ∧
    "No data collected yet." ∈
      (run envDown init [Ev.startCmd, Ev.button "finish_submission"]).msgs := by
  decide

/-- Claim C4 amended: if the spreadsheet connection failed at startup, no
run of any length for any user ever calls append_row; a finish action taken
with a non-empty stored list replies with the unavailable-backend message
and ends the dialogue; a finish action with no collected entries instead
replies No data collected yet. -/
theorem C4_down_never_appends (env : Env) (hws : env.worksheet = false)
    (evs : List Ev) (l : List String) (hl : l ≠ []) :
    (run env init evs).appends = [] ∧
    data_button env.worksheet env.append_row_ok (some l) "finish_submission" =
      ⟨none, HRes.endConv, true,
        ["Sorry, could not connect to Google Sheets. Data not saved."], []⟩ ∧
    data_button env.worksheet env.append_row_ok none "finish_submission" =
      ⟨none, HRes.endConv, true, ["No data collected yet."], []⟩ := by
  refine ⟨run_no_append_of_down env hws init evs, ?_, ?_⟩
  · rw [hws, data_button_finish_some false env.append_row_ok l hl]
    rfl
  · rw [hws, data_button_finish_none]

theorem C4_down_never_appends_witness :
    (run envDown init
      [Ev.startCmd, Ev.textMsg "a", Ev.button "finish_submission"]).appends = [] :=
  (C4_down_never_appends envDown rfl
    [Ev.startCmd, Ev.textMsg "a", Ev.button "finish_submission"] ["a"] (by decide)).1

/-- Claim C5: from every reachable state in which the data conversation is
inactive (exactly the states where the start entry point fires), dispatching
/start enters GET_DATA with no stored entries: the current_data key is
absent, which get_data reads as the empty list when the first data point
arrives, and the record of texts collected this dialogue is reset to empty.
The start handler itself leaves user_data untouched; emptiness holds because
every terminal transition of a previous dialogue removed the key. -/
theorem C5_start_fresh (env : Env) (evs : List Ev)
    (h : (reach env evs).dataConv = .idle) :
    (step env (reach env evs) Ev.startCmd).state.dataConv = .getData ∧
    (step env (reach env evs) Ev.startCmd).state.current_data = none ∧
    (step env (reach env evs) Ev.startCmd).state.collected = [] := by
  have hinv := inv_reach env evs
  revert hinv h
  generalize reach env evs = st
  intro h hinv
  obtain ⟨dc, sc, cd, col, da⟩ := st
  cases dc with
  | getData => exact (nomatch h)
  | idle =>
    have hcd : cd = none := hinv.data_idle rfl
    subst hcd
    exact ⟨rfl, rfl, rfl⟩

theorem C5_start_fresh_witness :
    (step envOk (reach envOk []) Ev.startCmd).state.dataConv =
      DataConvState.getData ∧
    (step envOk (reach envOk []) Ev.startCmd).state.current_data = none :=
  ⟨(C5_start_fresh envOk [] rfl).1, (C5_start_fresh envOk [] rfl).2.1⟩

/-- Claim C6: from every reachable state, a cancel while the data dialogue
is active (either the cancel button or the /cancel fallback) removes
current_data and deactivates that dialogue; /cancel while only the search
dialogue is active deactivates it (current_data is already absent); and a
subsequent /start begins a dialogue whose stored entries are empty. -/
theorem C6_cancel_clears (env : Env) (evs : List Ev) :
    ((reach env evs).dataConv = .getData →
      ((step env (reach env evs) Ev.cancelCmd).state.current_data = none ∧
       (step env (reach env evs) Ev.cancelCmd).state.dataConv = .idle) ∧
      ((step env (reach env evs) (Ev.button "cancel_submission")).state.current_data
          = none ∧
       (step env (reach env evs) (Ev.button "cancel_submission")).state.dataConv
          = .idle)) ∧
    ((reach env evs).dataConv = .idle →
      (reach env evs).searchConv = .receivingQuery →
      ((step env (reach env evs) Ev.cancelCmd).state.searchConv = .idle ∧
       (step env (reach env evs) Ev.cancelCmd).state.current_data = none)) ∧
    ((reach env evs).dataConv = .idle →
      ((step env (reach env evs) Ev.startCmd).state.dataConv = .getData ∧
       (step env (reach env evs) Ev.startCmd).state.current_data = none ∧
       (step env (reach env evs) Ev.startCmd).state.collected = [])) := by
  have hinv := inv_reach env evs
  revert hinv
  generalize reach env evs = st
  intro hinv
  obtain ⟨dc, sc, cd, col, da⟩ := st
  refine ⟨fun h => ?_, fun hd hs => ?_, fun h => ?_⟩
  · cases dc with
    | idle => exact absurd h (by simp)
    | getData =>
      refine ⟨⟨rfl, rfl⟩, ?_, ?_⟩
      · show (data_button env.worksheet env.append_row_ok cd
            "cancel_submission").user_data = none
        simp [data_button]
      · show applyData DataConvState.getData
            (data_button env.worksheet env.append_row_ok cd
              "cancel_submission").result = DataConvState.idle
        simp [data_button, applyData]
  · subst hd
    subst hs
    exact ⟨rfl, hinv.data_idle rfl⟩
  · subst h
    have hcd : cd = none := hinv.data_idle rfl
    subst hcd
    exact ⟨rfl, rfl, rfl⟩

theorem C6_cancel_clears_witness :
    ((step envOk (reach envOk [Ev.startCmd, Ev.textMsg "a"])
        Ev.cancelCmd).state.current_data = none ∧
     (step envOk (reach envOk [Ev.startCmd, Ev.textMsg "a"])
        Ev.cancelCmd).state.dataConv = DataConvState.idle) ∧
    ((step envOk (reach envOk [Ev.searchCmd]) Ev.cancelCmd).state.searchConv =
        SearchConvState.idle ∧
     (step envOk (reach envOk [Ev.searchCmd]) Ev.cancelCmd).state.current_data =
        none) :=
  ⟨((C6_cancel_clears envOk [Ev.startCmd, Ev.textMsg "a"]).1 (by decide)).1,
   (C6_cancel_clears envOk [Ev.searchCmd]).2.1 (by decide) (by decide)⟩

/-- If data_button passes a row to append_row, the press was the finish
button, the stored list was non-empty, the row is exactly that list, and the
conversation ends. -/
theorem data_button_appends_shape (ws : Bool) (ao : List String → Bool)
    (ud : UserData) (d : String)
    (hne : (data_button ws ao ud d).appends ≠ []) :
    d = "finish_submission" ∧ ∃ l, ud = some l ∧ l ≠ [] ∧
      (data_button ws ao ud d).appends = [l] ∧
      (data_button ws ao ud d).result = HRes.endConv := by
  by_cases h1 : d = "submit_data" ∨ d = "add_more_data"
  · refine absurd ?_ hne
    rcases h1 with h1 | h1 <;> simp [data_button, h1]
  · by_cases h2 : d = "finish_submission"
    · subst h2
      cases ud with
      | none => exact absurd (by rw [data_button_finish_none]) hne
      | some l =>
        by_cases h3 : l = []
        · subst h3
          exact absurd (by simp [data_button]) hne
        · rw [data_button_finish_some ws ao l h3] at hne ⊢
          refine ⟨rfl, l, rfl, h3, ?_, ?_⟩
          · split_ifs at hne ⊢ <;> first | rfl | exact absurd rfl hne
          · split_ifs <;> rfl
    · by_cases h4 : d = "cancel_submission"
      · exact absurd (by simp [data_button, h1, h2, h4]) hne
      · exact absurd (by simp [data_button, h1, h2, h4]) hne

/-- Any step that passes a row to append_row is a finish button press taken
in GET_DATA whose stored list is exactly the full list of texts collected
this dialogue; that full list is the appended row and the dialogue ends with
that step. -/
theorem append_step_shape (env : Env) (st : BotState) (ev : Ev) (hinv : Inv st)
    (hne : (step env st ev).appends ≠ []) :
    ev = Ev.button "finish_submission" ∧ st.dataConv = .getData ∧
    st.current_data = some st.collected ∧ st.collected ≠ [] ∧
    (step env st ev).appends = [st.collected] ∧
    (step env st ev).state.dataConv = .idle := by
  obtain ⟨dc, sc, cd, col, da⟩ := st
  cases ev with
  | startCmd => cases dc <;> exact absurd rfl hne
  | searchCmd => cases sc <;> exact absurd rfl hne
  | cancelCmd =>
    cases dc with
    | getData => exact absurd rfl hne
    | idle => cases sc <;> exact absurd rfl hne
  | textMsg s =>
    cases dc with
    | getData => exact absurd rfl hne
    | idle => cases sc <;> exact absurd rfl hne
  | button d =>
    cases dc with
    | idle => exact absurd rfl hne
    | getData =>
      obtain ⟨hd, l, hcd, hl, happ, hres⟩ :=
        data_button_appends_shape env.worksheet env.append_row_ok cd d hne
      subst hd
      have hcol : l = col ∧ l ≠ [] := by
        have h2 := hinv.data_active rfl
        rw [hcd] at h2
        exact h2
      refine ⟨rfl, rfl, ?_, ?_, ?_, ?_⟩
      · rw [hcd, hcol.1]
      · rw [← hcol.1]
        exact hl
      · show (data_button env.worksheet env.append_row_ok cd
            "finish_submission").appends = [col]
        rw [happ, hcol.1]
      · show applyData DataConvState.getData
            (data_button env.worksheet env.append_row_ok cd
              "finish_submission").result = DataConvState.idle
        rw [hres]
        rfl

/-- Claim C2: in every reachable state at most one append_row call has been
made during the current dialogue; and any step from a reachable state that
calls append_row is the finish button press taken in GET_DATA with a
non-empty stored list, passes exactly the full list of texts collected in
this dialogue (hence never a proper prefix of it), and ends the dialogue at
that same step, so no later step of the dialogue can append again. -/
theorem C2_append_at_most_once (env : Env) (evs : List Ev) (ev : Ev) :
    (reach env evs).dialogueAppends ≤ 1 ∧
    ((step env (reach env evs) ev).appends ≠ [] →
      (ev = Ev.button "finish_submission" ∧
       (reach env evs).dataConv = .getData ∧
       (reach env evs).current_data = some (reach env evs).collected ∧
       (reach env evs).collected ≠ [] ∧
       (step env (reach env evs) ev).appends = [(reach env evs).collected] ∧
       (step env (reach env evs) ev).state.dataConv = .idle)) :=
  ⟨(inv_reach env evs).appends_le,
   fun hne => append_step_shape env (reach env evs) ev (inv_reach env evs) hne⟩

theorem C2_append_at_most_once_witness :
    (step envOk (reach envOk [Ev.startCmd, Ev.textMsg "a"])
        (Ev.button "finish_submission")).appends =
      [(reach envOk [Ev.startCmd, Ev.textMsg "a"]).collected] :=
  ((C2_append_at_most_once envOk [Ev.startCmd, Ev.textMsg "a"]
      (Ev.button "finish_submission")).2 (by decide)).2.2.2.2.1

/-- The event trace of claim C1: the start command, the text messages, then
the finish button press. -/
def c1_events (texts : List String) : List Ev :=
  Ev.startCmd :: (texts.map Ev.textMsg ++ [Ev.button "finish_submission"])

/-- Claim C1: for every sequence of N plain text messages sent in GET_DATA
followed by the finish button press, with the worksheet connected and the
append succeeding: if N > 0 exactly one append_row call is made, whose
argument is exactly the N message texts in the order sent; if N = 0 no
append_row call is made and the No data collected yet. reply is sent. -/
theorem C1_finish_appends_in_order (env : Env) (texts : List String)
    (hws : env.worksheet = true) (hok : env.append_row_ok texts = true) :
    (texts ≠ [] → (run env init (c1_events texts)).appends = [texts]) ∧
    (texts = [] →
      (run env init (c1_events texts)).appends = [] ∧
      "No data collected yet." ∈ (run env init (c1_events texts)).msgs) := by
  constructor
  · intro hne
    obtain ⟨t, ts, rfl⟩ : ∃ t ts, texts = t :: ts := by
      cases texts with
      | nil => exact absurd rfl hne
      | cons t ts => exact ⟨t, ts, rfl⟩
    show ([] : List (List String)) ++
      (([] : List (List String)) ++
        (run env ⟨.getData, .idle, some [t], [t], 0⟩
          (ts.map Ev.textMsg ++ [Ev.button "finish_submission"])).appends) =
      [t :: ts]
    rw [run_append]
    rw [(run_texts env .idle [t] [t] 0 ts).2, (run_texts env .idle [t] [t] 0 ts).1]
    show ([] : List (List String)) ++ (([] : List (List String)) ++
      (([] : List (List String)) ++
        ((data_button env.worksheet env.append_row_ok (some ([t] ++ ts))
            "finish_submission").appends ++ []))) = [t :: ts]
    have hl : [t] ++ ts ≠ [] := by simp
    rw [data_button_finish_some env.worksheet env.append_row_ok ([t] ++ ts) hl, hws]
    simp only [List.singleton_append] at hok ⊢
    simp [hok]
  · intro h
    subst h
    constructor
    · show ([] : List (List String)) ++
        ((data_button env.worksheet env.append_row_ok none
            "finish_submission").appends ++ []) = []
      rw [data_button_finish_none]
      rfl
    · show "No data collected yet." ∈
        (start env.mention).2 ++
          ((data_button env.worksheet env.append_row_ok none
              "finish_submission").msgs ++ [])
      rw [data_button_finish_none]
      simp

theorem C1_finish_appends_in_order_witness :
    (run envOk init (c1_events ["a", "b"])).appends = [["a", "b"]] ∧
    (run envOk init (c1_events [])).appends = [] ∧
    "No data collected yet." ∈ (run envOk init (c1_events [])).msgs :=
  ⟨(C1_finish_appends_in_order envOk ["a", "b"] rfl rfl).1 (by decide),
   ((C1_finish_appends_in_order envOk [] rfl rfl).2 rfl).1,
   ((C1_finish_appends_in_order envOk [] rfl rfl).2 rfl).2⟩

end Bot
